import Mathlib

/-!
Verification of the crowd-transcription ingestion pipeline.

Shallow embedding of the repository's Python sources:
  - src/crowdtrans/transcriber/audio.py      (inline-blob audio resolution)
  - src/crowdtrans/transcriber/service.py    (discovery, processing, poll loop)
  - src/crowdtrans/transcriber/formatter.py  (section classification and corrections)

External collaborators (the gzip/zlib library, the RIS database adapters, the
transcription API) are modelled as explicit function parameters; pure logic is
translated directly from the source.
-/

set_option maxRecDepth 100000
set_option linter.unusedVariables false

namespace Crowdtrans

/-! ## Audio resolution — src/crowdtrans/transcriber/audio.py

Bytes are modelled as lists of byte values.  `gzip.decompress` and
`zlib.decompress(data, -zlib.MAX_WBITS)` are external library calls; they are
passed in as oracles of type `Bytes → Option Bytes` where `none` stands for
the call raising (caught by `_try_gzip` / `_try_deflate`).
-/

abbrev Bytes := List Nat

structure AudioResult where
  data : Bytes
  content_type : String
deriving Repr, DecidableEq

/-- WAV_MAGIC = b"RIFF" -/
def WAV_MAGIC : Bytes := [0x52, 0x49, 0x46, 0x46]

/-- GZIP_MAGIC = b"\x1f\x8b" -/
def GZIP_MAGIC : Bytes := [0x1f, 0x8b]

/-- audio.py `_is_wav`: len(data) >= 4 and data[:4] == WAV_MAGIC -/
def is_wav (data : Bytes) : Bool :=
  decide (4 ≤ data.length) && data.take 4 == WAV_MAGIC

/-- audio.py `_is_gzip`: len(data) >= 2 and data[:2] == GZIP_MAGIC -/
def is_gzip (data : Bytes) : Bool :=
  decide (2 ≤ data.length) && data.take 2 == GZIP_MAGIC

/-- audio.py `_try_gzip`: gzip.decompress(data), None on exception.
The oracle already returns `none` for the exception case. -/
def try_gzip (gz : Bytes → Option Bytes) (data : Bytes) : Option Bytes :=
  gz data

/-- audio.py `_try_deflate`: zlib.decompress(data, -MAX_WBITS); an empty
result is converted to None (`return result if result else None`). -/
def try_deflate (zl : Bytes → Option Bytes) (data : Bytes) : Option Bytes :=
  match zl data with
  | some r => if r = [] then none else some r
  | none => none

/-- The content-type labelling `"audio/wav" if _is_wav(result) else "audio/raw"`
used after every successful decompression in `process_karisma_blob`. -/
def label_ct (r : Bytes) : String :=
  if is_wav r then "audio/wav" else "audio/raw"

/-- The offset/length slicing at the top of `process_karisma_blob`
(audio.py lines 66-78): a present, non-degenerate range is applied only when
it fits inside the blob; an out-of-range range falls back to the full blob
(logged as a warning in the source). -/
def karisma_segment (raw_blob : Bytes) (offset length : Option Int) : Bytes :=
  match offset, length with
  | some o, some l =>
    if 0 ≤ o ∧ 0 < l then
      if (raw_blob.length : Int) < o + l then raw_blob
      else (raw_blob.drop o.toNat).take l.toNat
    else raw_blob
  | _, _ => raw_blob

/-- Strategy 4 of `process_karisma_blob`: for each skip offset, retry
gzip-signature detection + decompression, then raw deflate (accepted only when
the decompressed size exceeds the input slice size). -/
def strategy4 (gz zl : Bytes → Option Bytes) (segment : Bytes) :
    List Nat → Option AudioResult
  | [] => none
  | skip :: rest =>
    if segment.length ≤ skip then strategy4 gz zl segment rest
    else
      let trimmed := segment.drop skip
      let gzipHit : Option AudioResult :=
        if is_gzip trimmed then
          match try_gzip gz trimmed with
          | some r => if r = [] then none else some ⟨r, label_ct r⟩
          | none => none
        else none
      match gzipHit with
      | some a => some a
      | none =>
        match try_deflate zl trimmed with
        | some r =>
          if segment.length < r.length then some ⟨r, label_ct r⟩
          else strategy4 gz zl segment rest
        | none => strategy4 gz zl segment rest

/-- The body of `process_karisma_blob` after slicing: strategies 1-5 in the
source's priority order.  Every branch produces a result; strategy 5 returns
the untouched slice with the generic raw content type. -/
def process_segment (gz zl : Bytes → Option Bytes) (segment : Bytes) :
    AudioResult :=
  if is_wav segment then ⟨segment, "audio/wav"⟩
  else
    let s2 : Option AudioResult :=
      if is_gzip segment then
        match try_gzip gz segment with
        | some r => if r = [] then none else some ⟨r, label_ct r⟩
        | none => none
      else none
    match s2 with
    | some a => a
    | none =>
      match try_deflate zl segment with
      | some r => ⟨r, label_ct r⟩
      | none =>
        match strategy4 gz zl segment [2, 4, 8, 16, 32] with
        | some a => a
        | none => ⟨segment, "audio/raw"⟩

/-- audio.py `process_karisma_blob(raw_blob, offset, length, dictation_key)`.
The whole body runs inside `try: ... except: return None`; the pure embedding
cannot raise, so the success branch is always taken and the `none` value of
the result type corresponds to the (structurally unreachable) except path. -/
def process_karisma_blob (gz zl : Bytes → Option Bytes) (raw_blob : Bytes)
    (offset length : Option Int) (dictation_key : Int) : Option AudioResult :=
  some (process_segment gz zl (karisma_segment raw_blob offset length))

lemma strategy4_none (segment : Bytes) (skips : List Nat) :
    strategy4 (fun _ => none) (fun _ => none) segment skips = none := by
  induction skips with
  | nil => rfl
  | cons skip rest ih =>
    simp [strategy4, try_gzip, try_deflate, ih]

/-- C5 helper: with oracles that never decompress (arbitrary random bytes),
the resolver returns the untouched slice labelled raw whenever the slice is
not already a WAV container. -/
lemma process_segment_raw_fallback (segment : Bytes)
    (hwav : is_wav segment = false) :
    process_segment (fun _ => none) (fun _ => none) segment =
      ⟨segment, "audio/raw"⟩ := by
  simp [process_segment, hwav, try_gzip, try_deflate, strategy4_none]

/-- C5: inline-blob audio resolution never fails: for every byte string,
offset/length pair and decompression oracles the result is a clean `some`
(the Python except-path converts any exception to a clean failure and the
pure body cannot raise); and when no decompression strategy matches — the
oracles reject everything and the slice lacks the WAV signature — the result
is the original slice unmodified with the generic raw content type. -/
theorem audio_resolver_never_raises :
    (∀ (gz zl : Bytes → Option Bytes) (raw_blob : Bytes)
        (offset length : Option Int) (k : Int),
      (process_karisma_blob gz zl raw_blob offset length k).isSome = true) ∧
    (∀ (raw_blob : Bytes) (offset length : Option Int) (k : Int),
      is_wav (karisma_segment raw_blob offset length) = false →
      process_karisma_blob (fun _ => none) (fun _ => none)
          raw_blob offset length k =
        some ⟨karisma_segment raw_blob offset length, "audio/raw"⟩) := by
  constructor
  · intro gz zl raw_blob offset length k
    rfl
  · intro raw_blob offset length k hwav
    unfold process_karisma_blob
    rw [process_segment_raw_fallback _ hwav]

/-- C5 witness: arbitrary junk bytes resolve to the raw fallback. -/
theorem audio_resolver_never_raises_witness :
    is_wav (karisma_segment [0xde, 0xad, 0xbe, 0xef] none none) = false ∧
    process_karisma_blob (fun _ => none) (fun _ => none)
        [0xde, 0xad, 0xbe, 0xef] none none 1 =
      some ⟨[0xde, 0xad, 0xbe, 0xef], "audio/raw"⟩ :=
  ⟨by decide,
   audio_resolver_never_raises.2 [0xde, 0xad, 0xbe, 0xef] none none 1 (by decide)⟩

lemma karisma_segment_out_of_range (raw_blob : Bytes) (o l : Int)
    (h : (raw_blob.length : Int) < o + l) :
    karisma_segment raw_blob (some o) (some l) = raw_blob := by
  have hdef : karisma_segment raw_blob (some o) (some l) =
      if 0 ≤ o ∧ 0 < l then
        if (raw_blob.length : Int) < o + l then raw_blob
        else (raw_blob.drop o.toNat).take l.toNat
      else raw_blob := rfl
  rw [hdef]
  by_cases h1 : 0 ≤ o ∧ 0 < l
  · rw [if_pos h1, if_pos h]
  · rw [if_neg h1]

/-- C6: when the byte range is out of range for the blob (offset plus length
exceeds the blob size), the slice is ignored and the whole resolution behaves
exactly as if no range had been given: the full blob feeds every subsequent
strategy and the resolution still succeeds. -/
theorem out_of_range_slice_uses_full_blob (gz zl : Bytes → Option Bytes)
    (raw_blob : Bytes) (o l : Int) (k : Int)
    (h : (raw_blob.length : Int) < o + l) :
    process_karisma_blob gz zl raw_blob (some o) (some l) k =
      process_karisma_blob gz zl raw_blob none none k ∧
    (process_karisma_blob gz zl raw_blob (some o) (some l) k).isSome = true := by
  constructor
  · unfold process_karisma_blob
    rw [karisma_segment_out_of_range raw_blob o l h]
    rfl
  · rfl

/-- C6 witness: a range past the end of a 3-byte blob is ignored. -/
theorem out_of_range_slice_uses_full_blob_witness :
    ((3 : Int) < 1 + 5) ∧
    process_karisma_blob (fun _ => none) (fun _ => none)
        [10, 11, 12] (some 1) (some 5) 7 =
      process_karisma_blob (fun _ => none) (fun _ => none) [10, 11, 12] none none 7 :=
  ⟨by decide,
   (out_of_range_slice_uses_full_blob (fun _ => none) (fun _ => none)
      [10, 11, 12] 1 5 7 (by decide)).1⟩

/-! ## Work items and Karisma processing — src/crowdtrans/service.py, models.py

`Transcription` keeps the lifecycle-relevant columns of models.py; the large
denormalized patient/procedure/clinician metadata snapshot is collapsed into
the opaque `meta` field (it is copied at discovery and never consulted by the
lifecycle logic the claims are about). -/

structure Transcription where
  site_id : String
  source_dictation_id : Int
  extent_key : Option Int := none
  extent_offset : Option Int := none
  extent_length : Option Int := none
  status : String := "pending"
  error_message : Option String := none
  retry_count : Nat := 0
  transcript_text : Option String := none
  formatted_text : Option String := none
  meta : String := ""
deriving Repr, DecidableEq

structure TranscribeResult where
  transcript_text : String
  confidence : Int
  request_id : String
deriving Repr, DecidableEq

/-- Python truthiness of an optional integer column (`if not txn.extent_key`
is taken for NULL and for 0). -/
def py_truthy_int (x : Option Int) : Bool :=
  match x with
  | none => false
  | some n => n != 0

/-- service.py `_mark_failed`: status failed, message truncated to 2000
characters, retryCount incremented. -/
def mark_failed (txn : Transcription) (error : String) : Transcription :=
  { txn with status := "failed", error_message := some (error.take 2000),
             retry_count := txn.retry_count + 1 }

/-- service.py `_store_result`: status complete, transcript and formatted
text stored, error message cleared.  The formatter (`format_transcript` in
the source) is passed in; its classification and correction stages are
embedded further below. -/
def store_result (formatter : String → String) (txn : Transcription)
    (r : TranscribeResult) : Transcription :=
  { txn with status := "complete",
             transcript_text := some r.transcript_text,
             formatted_text := some (formatter r.transcript_text),
             error_message := none }

/-- service.py `_process_karisma`.  The external effects are parameters:
`fetch_blob` is the value of `fetch_audio_blob(site, txn.extent_key)`,
`resolve` abstracts `process_karisma_blob` (whose Python signature may return
None through its exception guard), `transcribe` is the Deepgram call with
exceptions as `.error`.  Returns the updated row and the boolean result. -/
def process_karisma (fetch_blob : Option Bytes)
    (resolve : Bytes → Option Int → Option Int → Int → Option AudioResult)
    (transcribe : Bytes → String → Except String TranscribeResult)
    (formatter : String → String)
    (txn : Transcription) : Transcription × Bool :=
  if !py_truthy_int txn.extent_key then
    ({ txn with status := "skipped",
                error_message := some "No ExtentKey for audio blob" }, false)
  else
    match fetch_blob with
    | none =>
      ({ txn with status := "skipped",
                  error_message := some ("Audio blob not found for ExtentKey "
                    ++ toString (txn.extent_key.getD 0)) }, false)
    | some raw_blob =>
      match resolve raw_blob txn.extent_offset txn.extent_length
          txn.source_dictation_id with
      | none =>
        ({ txn with status := "failed",
                    error_message := some "Audio decompression failed",
                    retry_count := txn.retry_count + 1 }, false)
      | some audio =>
        let txn1 := { txn with status := "transcribing" }
        match transcribe audio.data audio.content_type with
        | .error e => (mark_failed txn1 e, false)
        | .ok r => (store_result formatter txn1 r, true)

/-- The concrete work item and collaborators used to exercise the
audio-unresolvable branch of `_process_karisma`. -/
def c1_txn : Transcription :=
  { site_id := "karisma", source_dictation_id := 42, extent_key := some 7 }

def c1_result : Transcription × Bool :=
  process_karisma (some [1, 2, 3]) (fun _ _ _ _ => none)
    (fun _ _ => .error "unused") id c1_txn

/-- C1 counterexample: for the pending work item `c1_txn` whose blob is
fetched but whose audio resolution returns failure, the processing routine
does not set status skipped and does not leave retryCount unchanged — it
marks the item failed and increments retryCount. -/
theorem audio_unresolvable_not_skipped :
    ¬(c1_result.1.status = "skipped" ∧
      c1_result.1.retry_count = c1_txn.retry_count) := by
  decide

/-- C1 (amended): whenever the audio-resolution step returns failure after
the raw bytes were fetched, `_process_karisma` marks the item failed with
message "Audio decompression failed" and increments retryCount (skipped is
reserved for a missing ExtentKey or a missing blob). -/
theorem audio_unresolvable_marks_failed
    (raw_blob : Bytes)
    (resolve : Bytes → Option Int → Option Int → Int → Option AudioResult)
    (transcribe : Bytes → String → Except String TranscribeResult)
    (formatter : String → String) (txn : Transcription)
    (hkey : py_truthy_int txn.extent_key = true)
    (hres : resolve raw_blob txn.extent_offset txn.extent_length
        txn.source_dictation_id = none) :
    (process_karisma (some raw_blob) resolve transcribe formatter txn).1.status
        = "failed" ∧
    (process_karisma (some raw_blob) resolve transcribe formatter txn).1.retry_count
        = txn.retry_count + 1 ∧
    (process_karisma (some raw_blob) resolve transcribe formatter txn).1.error_message
        = some "Audio decompression failed" ∧
    (process_karisma (some raw_blob) resolve transcribe formatter txn).2 = false := by
  simp [process_karisma, hkey, hres]

/-- C1 witness: the amended behaviour at the concrete item `c1_txn`. -/
theorem audio_unresolvable_marks_failed_witness :
    py_truthy_int c1_txn.extent_key = true ∧
    c1_result.1.status = "failed" ∧ c1_result.1.retry_count = 1 :=
  ⟨by decide,
   (audio_unresolvable_marks_failed [1, 2, 3] (fun _ _ _ _ => none)
      (fun _ _ => .error "unused") id c1_txn (by decide) rfl).1,
   (audio_unresolvable_marks_failed [1, 2, 3] (fun _ _ _ _ => none)
      (fun _ _ => .error "unused") id c1_txn (by decide) rfl).2.1⟩

/-! ## Discovery — service.py `_discover_visage` / `_discover_karisma`

The adapter call `fetch_new_dictations(site, wm.last_dictation_id, batch)` is
external; the list of rows it returned is a parameter.  A row is its
source-native monotonic id plus the opaque metadata snapshot. -/

structure VisageRow where
  dictation_id : Int
  meta : String := ""
deriving Repr, DecidableEq

structure KarismaRow where
  transactionKey : Int
  extentKey : Option Int := none
  extentOffset : Option Int := none
  extentLength : Option Int := none
  meta : String := ""
deriving Repr, DecidableEq

structure Watermark where
  site_id : String
  last_dictation_id : Int
  last_poll_at : Option Nat := none
deriving Repr, DecidableEq

/-- The existence probe
`session.query(Transcription).filter_by(site_id=…, source_dictation_id=…).first()`. -/
def txn_exists (items : List Transcription) (sid : String) (did : Int) : Bool :=
  items.any (fun t => t.site_id == sid && t.source_dictation_id == did)

/-- Row-to-work-item construction of `_discover_visage` (metadata snapshot
collapsed into `meta`; status pending, retry_count 0 as in models.py). -/
def new_visage_txn (sid : String) (row : VisageRow) : Transcription :=
  { site_id := sid, source_dictation_id := row.dictation_id, meta := row.meta }

/-- Row-to-work-item construction of `_discover_karisma` (ditto, keeping the
Karisma blob reference columns). -/
def new_karisma_txn (sid : String) (row : KarismaRow) : Transcription :=
  { site_id := sid, source_dictation_id := row.transactionKey,
    extent_key := row.extentKey, extent_offset := row.extentOffset,
    extent_length := row.extentLength, meta := row.meta }

/-- The per-row loop shared by `_discover_visage` and `_discover_karisma`:
if a work item already exists for (site, record-id), skip creation but still
advance the candidate max id; otherwise create the item in pending. -/
def discover_loop (sid : String) {ρ : Type} (getId : ρ → Int)
    (mk : ρ → Transcription) :
    List ρ → List Transcription → Int → Nat → List Transcription × Int × Nat
  | [], items, maxId, count => (items, maxId, count)
  | row :: rest, items, maxId, count =>
    if txn_exists items sid (getId row) then
      discover_loop sid getId mk rest items (max maxId (getId row)) count
    else
      discover_loop sid getId mk rest (items ++ [mk row])
        (max maxId (getId row)) (count + 1)

/-- service.py `_discover_visage`: early return on no rows, else run the loop
from the stored watermark and persist the new watermark and poll time. -/
def discover_visage (sid : String) (rows : List VisageRow)
    (items : List Transcription) (wm : Watermark) (now : Nat) :
    List Transcription × Watermark × Nat :=
  if rows.isEmpty then (items, wm, 0)
  else
    let r := discover_loop sid (fun row => row.dictation_id)
      (new_visage_txn sid) rows items wm.last_dictation_id 0
    (r.1, { wm with last_dictation_id := r.2.1, last_poll_at := some now }, r.2.2)

/-- service.py `_discover_karisma`: identical skeleton keyed on
TransactionKey. -/
def discover_karisma (sid : String) (rows : List KarismaRow)
    (items : List Transcription) (wm : Watermark) (now : Nat) :
    List Transcription × Watermark × Nat :=
  if rows.isEmpty then (items, wm, 0)
  else
    let r := discover_loop sid (fun row => row.transactionKey)
      (new_karisma_txn sid) rows items wm.last_dictation_id 0
    (r.1, { wm with last_dictation_id := r.2.1, last_poll_at := some now }, r.2.2)

lemma discover_loop_maxId_le (sid : String) {ρ : Type} (getId : ρ → Int)
    (mk : ρ → Transcription) (rows : List ρ) :
    ∀ items maxId count,
      maxId ≤ (discover_loop sid getId mk rows items maxId count).2.1 := by
  induction rows with
  | nil => intro items maxId count; simp [discover_loop]
  | cons row rest ih =>
    intro items maxId count
    by_cases hx : txn_exists items sid (getId row)
    · simp only [discover_loop, hx, if_pos]
      exact le_trans (le_max_left _ _) (ih _ _ _)
    · simp only [discover_loop, hx, if_neg, Bool.false_eq_true,
        not_false_iff, ite_false]
      exact le_trans (le_max_left _ _) (ih _ _ _)

lemma txn_exists_append (items extra : List Transcription) (sid : String)
    (did : Int) (h : txn_exists items sid did = true) :
    txn_exists (items ++ extra) sid did = true := by
  unfold txn_exists at *
  rw [List.any_append, h, Bool.true_or]

lemma discover_loop_items_grow (sid : String) {ρ : Type} (getId : ρ → Int)
    (mk : ρ → Transcription) (rows : List ρ) :
    ∀ items maxId count,
      ∃ extra, (discover_loop sid getId mk rows items maxId count).1
        = items ++ extra := by
  induction rows with
  | nil => intro items maxId count; exact ⟨[], by simp [discover_loop]⟩
  | cons row rest ih =>
    intro items maxId count
    by_cases hx : txn_exists items sid (getId row)
    · simpa only [discover_loop, hx, if_pos] using ih items _ count
    · simp only [discover_loop, hx, Bool.false_eq_true, not_false_iff,
        ite_false]
      obtain ⟨extra, hextra⟩ := ih (items ++ [mk row]) (max maxId (getId row))
        (count + 1)
      exact ⟨[mk row] ++ extra, by rw [hextra, List.append_assoc]⟩

lemma txn_exists_single (sid : String) (did : Int) (items : List Transcription)
    (t : Transcription) (h1 : t.site_id = sid)
    (h2 : t.source_dictation_id = did) :
    txn_exists (items ++ [t]) sid did = true := by
  simp [txn_exists, List.any_append, h1, h2]

lemma discover_loop_registers (sid : String) {ρ : Type} (getId : ρ → Int)
    (mk : ρ → Transcription)
    (hmk : ∀ r, (mk r).site_id = sid ∧ (mk r).source_dictation_id = getId r)
    (rows : List ρ) :
    ∀ items maxId count, ∀ r ∈ rows,
      txn_exists (discover_loop sid getId mk rows items maxId count).1
        sid (getId r) = true := by
  induction rows with
  | nil => intro items maxId count r hr; cases hr
  | cons row rest ih =>
    intro items maxId count r hr
    rcases List.mem_cons.mp hr with heq | hmem
    · subst heq
      by_cases hx : txn_exists items sid (getId r)
      · simp only [discover_loop, hx, if_pos]
        obtain ⟨extra, hextra⟩ := discover_loop_items_grow sid getId mk rest
          items (max maxId (getId r)) count
        rw [hextra]
        exact txn_exists_append _ _ _ _ hx
      · simp only [discover_loop, hx, Bool.false_eq_true, not_false_iff,
          ite_false]
        obtain ⟨extra, hextra⟩ := discover_loop_items_grow sid getId mk rest
          (items ++ [mk r]) (max maxId (getId r)) (count + 1)
        rw [hextra]
        exact txn_exists_append _ _ _ _
          (txn_exists_single sid (getId r) items (mk r) (hmk r).1 (hmk r).2)
    · by_cases hx : txn_exists items sid (getId row)
      · simp only [discover_loop, hx, if_pos]
        exact ih _ _ _ r hmem
      · simp only [discover_loop, hx, Bool.false_eq_true, not_false_iff,
          ite_false]
        exact ih _ _ _ r hmem

lemma discover_loop_ids_le (sid : String) {ρ : Type} (getId : ρ → Int)
    (mk : ρ → Transcription) (rows : List ρ) :
    ∀ items maxId count, ∀ r ∈ rows,
      getId r ≤ (discover_loop sid getId mk rows items maxId count).2.1 := by
  induction rows with
  | nil => intro items maxId count r hr; cases hr
  | cons row rest ih =>
    intro items maxId count r hr
    rcases List.mem_cons.mp hr with heq | hmem
    · subst heq
      by_cases hx : txn_exists items sid (getId r)
      · simp only [discover_loop, hx, if_pos]
        exact le_trans (le_max_right _ _) (discover_loop_maxId_le _ _ _ _ _ _ _)
      · simp only [discover_loop, hx, Bool.false_eq_true, not_false_iff,
          ite_false]
        exact le_trans (le_max_right _ _) (discover_loop_maxId_le _ _ _ _ _ _ _)
    · by_cases hx : txn_exists items sid (getId row)
      · simp only [discover_loop, hx, if_pos]
        exact ih _ _ _ r hmem
      · simp only [discover_loop, hx, Bool.false_eq_true, not_false_iff,
          ite_false]
        exact ih _ _ _ r hmem

lemma discover_loop_noop (sid : String) {ρ : Type} (getId : ρ → Int)
    (mk : ρ → Transcription) (rows : List ρ) :
    ∀ items maxId count,
      (∀ r ∈ rows, txn_exists items sid (getId r) = true) →
      (∀ r ∈ rows, getId r ≤ maxId) →
      discover_loop sid getId mk rows items maxId count
        = (items, maxId, count) := by
  induction rows with
  | nil => intro items maxId count _ _; rfl
  | cons row rest ih =>
    intro items maxId count hex hle
    have hx : txn_exists items sid (getId row) = true :=
      hex row (List.mem_cons_self row rest)
    have hmax : max maxId (getId row) = maxId :=
      max_eq_left (hle row (List.mem_cons_self row rest))
    simp only [discover_loop, hx, if_pos, hmax]
    exact ih items maxId count
      (fun r hr => hex r (List.mem_cons_of_mem _ hr))
      (fun r hr => hle r (List.mem_cons_of_mem _ hr))

lemma new_visage_txn_key (sid : String) (r : VisageRow) :
    (new_visage_txn sid r).site_id = sid ∧
    (new_visage_txn sid r).source_dictation_id = r.dictation_id := ⟨rfl, rfl⟩

lemma new_karisma_txn_key (sid : String) (r : KarismaRow) :
    (new_karisma_txn sid r).site_id = sid ∧
    (new_karisma_txn sid r).source_dictation_id = r.transactionKey := ⟨rfl, rfl⟩

/-- C7: discovery is idempotent.  For both source kinds, running discovery a
second time against the same adapter rows and the store state left by the
first run creates no new work items, re-skips every row as already existing,
and leaves the watermark value (last_dictation_id) unchanged. -/
theorem discovery_idempotent (sid : String) (items : List Transcription)
    (wm : Watermark) (now1 now2 : Nat) :
    (∀ (rows : List VisageRow),
      (discover_visage sid rows
          (discover_visage sid rows items wm now1).1
          (discover_visage sid rows items wm now1).2.1 now2).1
        = (discover_visage sid rows items wm now1).1 ∧
      (discover_visage sid rows
          (discover_visage sid rows items wm now1).1
          (discover_visage sid rows items wm now1).2.1 now2).2.1.last_dictation_id
        = (discover_visage sid rows items wm now1).2.1.last_dictation_id ∧
      (discover_visage sid rows
          (discover_visage sid rows items wm now1).1
          (discover_visage sid rows items wm now1).2.1 now2).2.2 = 0) ∧
    (∀ (rows : List KarismaRow),
      (discover_karisma sid rows
          (discover_karisma sid rows items wm now1).1
          (discover_karisma sid rows items wm now1).2.1 now2).1
        = (discover_karisma sid rows items wm now1).1 ∧
      (discover_karisma sid rows
          (discover_karisma sid rows items wm now1).1
          (discover_karisma sid rows items wm now1).2.1 now2).2.1.last_dictation_id
        = (discover_karisma sid rows items wm now1).2.1.last_dictation_id ∧
      (discover_karisma sid rows
          (discover_karisma sid rows items wm now1).1
          (discover_karisma sid rows items wm now1).2.1 now2).2.2 = 0) := by
  constructor
  · intro rows
    by_cases hrows : rows.isEmpty
    · simp [discover_visage, hrows]
    · have hnoop := discover_loop_noop sid (fun row => row.dictation_id)
        (new_visage_txn sid) rows
        (discover_loop sid (fun row => row.dictation_id) (new_visage_txn sid)
          rows items wm.last_dictation_id 0).1
        (discover_loop sid (fun row => row.dictation_id) (new_visage_txn sid)
          rows items wm.last_dictation_id 0).2.1 0
        (fun r hr => discover_loop_registers sid (fun row => row.dictation_id)
          (new_visage_txn sid) (new_visage_txn_key sid) rows items
          wm.last_dictation_id 0 r hr)
        (fun r hr => discover_loop_ids_le sid (fun row => row.dictation_id)
          (new_visage_txn sid) rows items wm.last_dictation_id 0 r hr)
      simp [discover_visage, hrows, hnoop]
  · intro rows
    by_cases hrows : rows.isEmpty
    · simp [discover_karisma, hrows]
    · have hnoop := discover_loop_noop sid (fun row => row.transactionKey)
        (new_karisma_txn sid) rows
        (discover_loop sid (fun row => row.transactionKey) (new_karisma_txn sid)
          rows items wm.last_dictation_id 0).1
        (discover_loop sid (fun row => row.transactionKey) (new_karisma_txn sid)
          rows items wm.last_dictation_id 0).2.1 0
        (fun r hr => discover_loop_registers sid (fun row => row.transactionKey)
          (new_karisma_txn sid) (new_karisma_txn_key sid) rows items
          wm.last_dictation_id 0 r hr)
        (fun r hr => discover_loop_ids_le sid (fun row => row.transactionKey)
          (new_karisma_txn sid) rows items wm.last_dictation_id 0 r hr)
      simp [discover_karisma, hrows, hnoop]

/-- C8: the watermark only moves forward — for both source kinds and for
every list of adapter rows (including record ids below the current
watermark), the stored last_dictation_id after a discovery run is greater
than or equal to its value before the run. -/
theorem watermark_moves_forward (sid : String) (items : List Transcription)
    (wm : Watermark) (now : Nat) :
    (∀ (rows : List VisageRow),
      wm.last_dictation_id ≤
        (discover_visage sid rows items wm now).2.1.last_dictation_id) ∧
    (∀ (rows : List KarismaRow),
      wm.last_dictation_id ≤
        (discover_karisma sid rows items wm now).2.1.last_dictation_id) := by
  constructor
  · intro rows
    by_cases hrows : rows.isEmpty
    · simp [discover_visage, hrows]
    · simp only [discover_visage, hrows, Bool.false_eq_true, not_false_iff,
        ite_false]
      exact discover_loop_maxId_le sid (fun row => row.dictation_id)
        (new_visage_txn sid) rows items wm.last_dictation_id 0
  · intro rows
    by_cases hrows : rows.isEmpty
    · simp [discover_karisma, hrows]
    · simp only [discover_karisma, hrows, Bool.false_eq_true, not_false_iff,
        ite_false]
      exact discover_loop_maxId_le sid (fun row => row.transactionKey)
        (new_karisma_txn sid) rows items wm.last_dictation_id 0

/-! ## Poll loop — service.py `run`

Discovery/processing per site are abstracted into a `work` outcome function
(exceptions inside the per-site `try` are swallowed by the source, so a site
either contributed work or it did not).  Python's `min()` raising ValueError
on an empty sequence is modelled by `Except.error`; the error propagates out
of `run` because nothing in the loop catches it. -/

structure SiteConfig where
  site_id : String
  ris_type : String
  poll_interval_seconds : Nat
  batch_size : Nat
deriving Repr, DecidableEq

/-- Python builtin `min` over a sequence: ValueError on an empty sequence. -/
def py_min (l : List Nat) : Except String Nat :=
  match l with
  | [] => .error "min() arg is an empty sequence"
  | x :: xs => .ok (xs.foldl Nat.min x)

/-- The `if site_id: sites = [s for s in sites if s.site_id == site_id]`
filter applied to every read of the enabled-site configurations. -/
def filter_site (site_id : Option String) (sites : List SiteConfig) :
    List SiteConfig :=
  match site_id with
  | some sid => sites.filter (fun s => s.site_id == sid)
  | none => sites

/-- One iteration of the `while not _shutdown` body of `run`: per-site
discovery/processing (errors swallowed per site), then the idle sleep whose
interval is `min(s.poll_interval_seconds for s in sites)` when no work was
done — the only step that can raise. -/
def poll_cycle (sites : List SiteConfig) (work : SiteConfig → Bool) :
    Except String Unit :=
  let any_work := sites.any work
  if !any_work then
    match py_min (sites.map (fun s => s.poll_interval_seconds)) with
    | .error e => .error e
    | .ok _interval => .ok ()
  else .ok ()

/-- The poll loop of `run`: each cycle re-reads the enabled site configs (the
successive reads are the `cycles` list; an empty list is shutdown).  An
exception from a cycle propagates: nothing in the loop catches it. -/
def run_cycles (site_id : Option String) (work : SiteConfig → Bool) :
    List (List SiteConfig) → Except String Unit
  | [] => .ok ()
  | cs :: rest =>
    match poll_cycle (filter_site site_id cs) work with
    | .error e => .error e
    | .ok _ => run_cycles site_id work rest

/-- service.py `run(site_id)`: the startup read of the enabled sites returns
cleanly when a requested site is absent/disabled; otherwise the poll loop
runs over the successive config reads. -/
def run_service (site_id : Option String) (initial_sites : List SiteConfig)
    (cycles : List (List SiteConfig)) (work : SiteConfig → Bool) :
    Except String Unit :=
  if site_id.isSome && (filter_site site_id initial_sites).isEmpty then .ok ()
  else run_cycles site_id work cycles

/-- C10: if during a poll cycle the set of enabled sources becomes empty
(while the startup read was non-empty, so the service entered its loop) and
hence no work is done, the idle-sleep step takes the minimum poll interval of
an empty sequence; the resulting exception propagates out of `run`,
terminating the service instead of sleeping and continuing. -/
theorem empty_site_set_crashes_poll_loop (site_id : Option String)
    (initial_sites : List SiteConfig) (cs : List SiteConfig)
    (rest : List (List SiteConfig)) (work : SiteConfig → Bool)
    (hstart : ¬(site_id.isSome = true ∧
      (filter_site site_id initial_sites).isEmpty = true))
    (hempty : filter_site site_id cs = []) :
    run_service site_id initial_sites (cs :: rest) work =
      .error "min() arg is an empty sequence" := by
  have hguard : (site_id.isSome && (filter_site site_id initial_sites).isEmpty)
      = false := by
    cases hs : site_id.isSome with
    | false => simp [hs]
    | true =>
      cases he : (filter_site site_id initial_sites).isEmpty with
      | false => simp [hs, he]
      | true => exact absurd ⟨hs, he⟩ hstart
  unfold run_service
  rw [hguard]
  simp only [Bool.false_eq_true, if_false]
  unfold run_cycles
  rw [hempty]
  rfl

/-- C10 witness: with one enabled site at startup and all sites disabled on
the first cycle read, the service terminates with the ValueError. -/
theorem empty_site_set_crashes_poll_loop_witness :
    run_service none
      [{ site_id := "visage", ris_type := "visage",
         poll_interval_seconds := 30, batch_size := 10 }]
      [[]] (fun _ => false) = .error "min() arg is an empty sequence" :=
  empty_site_set_crashes_poll_loop none
    [{ site_id := "visage", ris_type := "visage",
       poll_interval_seconds := 30, batch_size := 10 }]
    [] [] (fun _ => false) (by decide) rfl

/-! ## Section assignment — formatter.py `add_section_headings`

The defaulting/coercion loop over the classified paragraphs
(formatter.py lines 1048-1070).  A classified paragraph is an optional
section name (the `_classify_paragraph` output, `none` = unclassified) paired
with the cleaned paragraph text. -/

/-- formatter.py `section_order` dict with its `.get(section, 2)` default. -/
def section_order (s : String) : Int :=
  if s = "CLINICAL HISTORY" then 0
  else if s = "PROCEDURE" then 1
  else if s = "FINDINGS" then 2
  else if s = "CONCLUSION" then 3
  else 2

/-- The loop body of `add_section_headings` over `classified`: an
unclassified paragraph inherits the previous (already resolved) paragraph's
section, defaulting to FINDINGS at the start; a classified paragraph whose
order is strictly below `highest_section_seen` is coerced to the previous
paragraph's section; otherwise it is kept and the watermark raised.
`prev` is the resolved section of classified[i-1] (`none` only at i = 0). -/
def resolve_sections_aux (prev : Option String) (highest : Int) :
    List (Option String × String) → List (String × String)
  | [] => []
  | (none, para) :: rest =>
    let sec := match prev with
      | some p => p
      | none => "FINDINGS"
    (sec, para) :: resolve_sections_aux (some sec) highest rest
  | (some s, para) :: rest =>
    if section_order s < highest then
      let sec := match prev with
        | some p => p
        | none => "FINDINGS"
      (sec, para) :: resolve_sections_aux (some sec) highest rest
    else
      (s, para) :: resolve_sections_aux (some s)
        (max highest (section_order s)) rest

/-- The full defaulting/coercion pass (`highest_section_seen = -1` at entry). -/
def resolve_sections (classified : List (Option String × String)) :
    List (String × String) :=
  resolve_sections_aux none (-1) classified

/-- Section orders are non-decreasing from `p` along the list. -/
def sections_chain (p : String) : List (String × String) → Bool
  | [] => true
  | (s, _) :: rest =>
    decide (section_order p ≤ section_order s) && sections_chain s rest

/-- The produced section assignment is monotone in the fixed order. -/
def sections_monotone : List (String × String) → Bool
  | [] => true
  | (s, _) :: rest => sections_chain s rest

/-- C2 counterexample: a first paragraph the classifier leaves unclassified
(e.g. "Hello.") is defaulted to FINDINGS without raising
highest_section_seen, so a following paragraph classified CLINICAL HISTORY
(e.g. "Clinical history knee pain.") is kept, producing FINDINGS followed by
CLINICAL HISTORY — the assignment produced by heading assembly is not
monotone for every input paragraph sequence. -/
theorem section_order_not_always_monotone :
    resolve_sections [(none, "Hello."),
        (some "CLINICAL HISTORY", "Knee pain.")]
      = [("FINDINGS", "Hello."), ("CLINICAL HISTORY", "Knee pain.")] ∧
    sections_monotone (resolve_sections [(none, "Hello."),
        (some "CLINICAL HISTORY", "Knee pain.")]) = false := by
  decide

lemma section_order_nonneg (s : String) : 0 ≤ section_order s := by
  unfold section_order
  split_ifs <;> decide

lemma resolve_sections_aux_chain (l : List (Option String × String)) :
    ∀ (p : String) (h : Int), section_order p ≤ h →
      sections_chain p (resolve_sections_aux (some p) h l) = true := by
  induction l with
  | nil => intro p h hp; rfl
  | cons hd rest ih =>
    intro p h hp
    obtain ⟨osec, para⟩ := hd
    cases osec with
    | none =>
      simp only [resolve_sections_aux, sections_chain]
      rw [ih p h hp]
      simp
    | some s =>
      by_cases hlt : section_order s < h
      · simp only [resolve_sections_aux, hlt, if_pos, sections_chain]
        rw [ih p h hp]
        simp
      · simp only [resolve_sections_aux, hlt, if_neg, sections_chain]
        have hps : section_order p ≤ section_order s :=
          le_trans hp (not_lt.mp hlt)
        rw [ih s (max h (section_order s)) (le_max_right _ _)]
        simp [hps]

/-- C2 (amended): the coercion pass keeps the assignment monotone whenever
the first paragraph is classified by the classifier: once a paragraph is
classified at a given order no later paragraph ends at a strictly lower
order, a violating classification being coerced to the previous paragraph's
section; in particular for paragraphs classified FINDINGS, CLINICAL HISTORY,
CONCLUSION the second paragraph is coerced to FINDINGS.  (Only a leading run
of unclassified paragraphs — defaulted to FINDINGS without updating
highest_section_seen — can produce a backward transition.) -/
theorem section_order_monotone_when_head_classified :
    (∀ (s : String) (para : String) (rest : List (Option String × String)),
      sections_monotone (resolve_sections ((some s, para) :: rest)) = true) ∧
    resolve_sections [(some "FINDINGS", "a"), (some "CLINICAL HISTORY", "b"),
        (some "CONCLUSION", "c")]
      = [("FINDINGS", "a"), ("FINDINGS", "b"), ("CONCLUSION", "c")] := by
  constructor
  · intro s para rest
    have hnot : ¬(section_order s < -1) := by
      have := section_order_nonneg s
      omega
    unfold resolve_sections
    simp only [resolve_sections_aux, hnot, if_neg, sections_monotone]
    exact resolve_sections_aux_chain rest s (max (-1) (section_order s))
      (le_max_right _ _)
  · decide

/-! ## Keyword-bag scoring — formatter.py `_classify_paragraph` step 3

Tokenisation is `re.findall(r'[a-z]+(?:-[a-z]+)*', text_lower)` for single
words plus the bigrams of `text_lower.split()`, where
`text_lower = text.strip().lower()`.  Scores count, per fixed keyword set,
the keywords present among words-or-bigrams; the winner is taken by
`max(scores, key=scores.get)` (first dict key at the maximum, in insertion
order CLINICAL HISTORY, PROCEDURE, FINDINGS, CONCLUSION) and only if the
maximum is at least 2. -/

def py_is_space (c : Char) : Bool :=
  c == ' ' || c == '\t' || c == '\n' || c == '\r' ||
    c == Char.ofNat 11 || c == Char.ofNat 12

def is_lower_az (c : Char) : Bool :=
  decide ('a' ≤ c) && decide (c ≤ 'z')

def ascii_lower (c : Char) : Char :=
  if decide ('A' ≤ c) && decide (c ≤ 'Z') then Char.ofNat (c.toNat + 32) else c

def lower_string (s : String) : String := String.mk (s.data.map ascii_lower)

def py_strip_chars (cs : List Char) : List Char :=
  ((cs.dropWhile (fun c => py_is_space c)).reverse.dropWhile
    (fun c => py_is_space c)).reverse

/-- Python str.strip() on the ASCII subset. -/
def py_strip (s : String) : String := String.mk (py_strip_chars s.data)

def take_while_lower : List Char → List Char × List Char
  | [] => ([], [])
  | c :: rest =>
    if is_lower_az c then
      let p := take_while_lower rest
      (c :: p.1, p.2)
    else ([], c :: rest)

/-- The greedy `(?:-[a-z]+)*` continuation of a word-token match. -/
def hyphen_ext (fuel : Nat) (cs : List Char) : List Char × List Char :=
  match fuel, cs with
  | 0, cs => ([], cs)
  | fuel + 1, '-' :: c :: rest =>
    if is_lower_az c then
      let p := take_while_lower (c :: rest)
      let q := hyphen_ext fuel p.2
      ('-' :: (p.1 ++ q.1), q.2)
    else ([], '-' :: c :: rest)
  | _, cs => ([], cs)

/-- re.findall r'[a-z]+(?:-[a-z]+)*': left-to-right, greedy, non-overlapping. -/
def findall_word_tokens (fuel : Nat) (cs : List Char) : List String :=
  match fuel, cs with
  | 0, _ => []
  | _, [] => []
  | fuel + 1, c :: rest =>
    if is_lower_az c then
      let p := take_while_lower (c :: rest)
      let q := hyphen_ext fuel p.2
      String.mk (p.1 ++ q.1) :: findall_word_tokens fuel q.2
    else findall_word_tokens fuel rest

def take_while_not_space : List Char → List Char × List Char
  | [] => ([], [])
  | c :: rest =>
    if py_is_space c then ([], c :: rest)
    else
      let p := take_while_not_space rest
      (c :: p.1, p.2)

def py_split_aux (fuel : Nat) (cs : List Char) : List String :=
  match fuel, cs with
  | 0, _ => []
  | _, [] => []
  | fuel + 1, c :: rest =>
    if py_is_space c then py_split_aux fuel rest
    else
      let p := take_while_not_space (c :: rest)
      String.mk p.1 :: py_split_aux fuel p.2

/-- Python str.split() with no separator: split on whitespace runs. -/
def py_split (s : String) : List String :=
  py_split_aux (s.data.length + 1) s.data

/-- `all_tokens = words | bigrams` of `_classify_paragraph`
(the set structure only serves membership tests). -/
def classify_tokens (text : String) : List String :=
  let text_lower := lower_string (py_strip text)
  let words := findall_word_tokens (text_lower.data.length + 1) text_lower.data
  let word_list := py_split text_lower
  let bigrams := (word_list.zip word_list.tail).map
    (fun p => p.1 ++ " " ++ p.2)
  words ++ bigrams

/-- formatter.py `_CLINICAL_HISTORY_KEYWORDS` -/
def CLINICAL_HISTORY_KEYWORDS : List String :=
  ["pain", "history", "chronic", "injury", "trauma", "complaint",
   "presenting", "referred", "referral", "symptoms", "worsening", "follow-up",
   "follow up", "known", "previous", "prior", "suspected", "query", "exclude",
   "rule out", "assess", "assessment", "investigate",
   "oa", "fracture", "bursitis", "dating scan"]

/-- formatter.py `_PROCEDURE_KEYWORDS` -/
def PROCEDURE_KEYWORDS : List String :=
  ["contrast", "non-contrast", "noncontrast", "post-contrast", "pre-contrast",
   "scan", "protocol", "technique", "sterile", "prep", "consent", "informed",
   "needle", "gauge", "injection", "injected", "administered", "sedation",
   "anaesthetic", "anesthetic", "lignocaine", "lidocaine",
   "euflexxa", "cortisone", "aseptic"]

/-- formatter.py `_FINDINGS_KEYWORDS` -/
def FINDINGS_KEYWORDS : List String :=
  ["there", "normal", "seen", "focal", "soft tissue", "echotexture",
   "architecture",
   "contour", "smooth", "unremarkable", "bilateral", "measures",
   "dimensions", "demonstrates", "shows", "reveals", "noted",
   "identified", "visualised", "visualized", "appear", "appears",
   "no evidence", "no significant", "no acute", "intact",
   "degenerative", "effusion", "calcification", "opacity",
   "attenuation", "enhancement", "parenchyma", "cortex",
   "liver", "kidney", "spleen", "pancreas", "gallbladder",
   "aorta", "vertebral", "disc", "joint", "tendon", "ligament",
   "transabdominal", "transvaginal", "uterus", "ovary",
   "bmd", "t-score", "z-score",
   "lungs", "pleural", "clear", "costophrenic",
   "symmetric", "non tender"]

/-- formatter.py `_CONCLUSION_KEYWORDS` -/
def CONCLUSION_KEYWORDS : List String :=
  ["major abnormality", "no major", "no significant abnormality",
   "unremarkable", "otherwise unremarkable",
   "could", "would", "should", "may", "suggest", "recommend",
   "clinical correlation", "correlate clinically",
   "consider", "advised", "advise", "if clinically",
   "further", "follow-up", "follow up", "review",
   "ongoing", "responds", "respond", "amenable",
   "bursitis", "tendinopathy", "impingement",
   "in keeping with", "consistent with", "suspicious",
   "no dvt", "no svt", "no fracture seen",
   "uncomplicated", "osteopaenia", "osteoporosis",
   "fatty liver", "prostatomegaly",
   "type 1 normal", "world health organization",
   "low-risk", "may respond"]

/-- `for kw in SET: if kw in all_tokens: score += 1` (each Python set literal
has pairwise-distinct elements, so counting list members is the same). -/
def keyword_score (kws : List String) (tokens : List String) : Nat :=
  (kws.filter (fun k => tokens.contains k)).length

/-- The per-section score of the keyword-scoring stage. -/
def classify_score (text : String) : String → Nat
  | "CLINICAL HISTORY" =>
    keyword_score CLINICAL_HISTORY_KEYWORDS (classify_tokens text)
  | "PROCEDURE" => keyword_score PROCEDURE_KEYWORDS (classify_tokens text)
  | "FINDINGS" => keyword_score FINDINGS_KEYWORDS (classify_tokens text)
  | "CONCLUSION" => keyword_score CONCLUSION_KEYWORDS (classify_tokens text)
  | _ => 0

/-- The keyword-scoring decision of `_classify_paragraph` (step 3):
`max_score = max(scores.values()); if max_score >= 2:
best = max(scores, key=scores.get)` — Python's max over the dict returns the
first key (insertion order) whose value equals the maximum. -/
def keyword_classify (text : String) : Option String :=
  let s_ch := keyword_score CLINICAL_HISTORY_KEYWORDS (classify_tokens text)
  let s_pr := keyword_score PROCEDURE_KEYWORDS (classify_tokens text)
  let s_fi := keyword_score FINDINGS_KEYWORDS (classify_tokens text)
  let s_co := keyword_score CONCLUSION_KEYWORDS (classify_tokens text)
  let max_score := max (max s_ch s_pr) (max s_fi s_co)
  if 2 ≤ max_score then
    if s_ch = max_score then some "CLINICAL HISTORY"
    else if s_pr = max_score then some "PROCEDURE"
    else if s_fi = max_score then some "FINDINGS"
    else some "CONCLUSION"
  else none

def report_sections : List String :=
  ["CLINICAL HISTORY", "PROCEDURE", "FINDINGS", "CONCLUSION"]

/-- Position of a section in the scores dict insertion order. -/
def section_index (s : String) : Nat :=
  if s = "CLINICAL HISTORY" then 0
  else if s = "PROCEDURE" then 1
  else if s = "FINDINGS" then 2
  else if s = "CONCLUSION" then 3
  else 4

/-- C3 counterexample: on "pain trauma normal seen" CLINICAL HISTORY and
FINDINGS tie for the highest score (2 each, at least 2), yet the scoring
stage does not leave the paragraph unclassified — it assigns the first tied
section in dict order, CLINICAL HISTORY. -/
theorem keyword_tie_is_classified :
    classify_score "pain trauma normal seen" "CLINICAL HISTORY" = 2 ∧
    classify_score "pain trauma normal seen" "FINDINGS" = 2 ∧
    classify_score "pain trauma normal seen" "PROCEDURE" = 0 ∧
    classify_score "pain trauma normal seen" "CONCLUSION" = 0 ∧
    keyword_classify "pain trauma normal seen" = some "CLINICAL HISTORY" := by
  refine ⟨?_, ?_, ?_, ?_, ?_⟩ <;> rfl

/-- C3 (amended): the keyword-scoring stage assigns a section only when the
highest score is at least 2, the assigned section always carries a maximal
score, and a tie at the maximum resolves to the earliest section in the fixed
dict order CLINICAL HISTORY, PROCEDURE, FINDINGS, CONCLUSION (it does not
fall through to unclassified); when every score is below 2 the paragraph is
left unclassified. -/
theorem keyword_scoring_characterisation (text : String) :
    (keyword_classify text = none →
      ∀ t ∈ report_sections, classify_score text t < 2) ∧
    (∀ s, keyword_classify text = some s →
      s ∈ report_sections ∧
      2 ≤ classify_score text s ∧
      (∀ t ∈ report_sections, classify_score text t ≤ classify_score text s) ∧
      (∀ t ∈ report_sections,
        classify_score text t = classify_score text s →
        section_index s ≤ section_index t)) := by
  have hch : classify_score text "CLINICAL HISTORY"
      = keyword_score CLINICAL_HISTORY_KEYWORDS (classify_tokens text) := rfl
  have hpr : classify_score text "PROCEDURE"
      = keyword_score PROCEDURE_KEYWORDS (classify_tokens text) := rfl
  have hfi : classify_score text "FINDINGS"
      = keyword_score FINDINGS_KEYWORDS (classify_tokens text) := rfl
  have hco : classify_score text "CONCLUSION"
      = keyword_score CONCLUSION_KEYWORDS (classify_tokens text) := rfl
  set a := keyword_score CLINICAL_HISTORY_KEYWORDS (classify_tokens text)
    with ha_def
  set b := keyword_score PROCEDURE_KEYWORDS (classify_tokens text) with hb_def
  set c := keyword_score FINDINGS_KEYWORDS (classify_tokens text) with hc_def
  set d := keyword_score CONCLUSION_KEYWORDS (classify_tokens text) with hd_def
  have hcases : keyword_classify text =
      (if 2 ≤ max (max a b) (max c d) then
        if a = max (max a b) (max c d) then some "CLINICAL HISTORY"
        else if b = max (max a b) (max c d) then some "PROCEDURE"
        else if c = max (max a b) (max c d) then some "FINDINGS"
        else some "CONCLUSION"
      else none) := rfl
  have hamax : a ≤ max (max a b) (max c d) :=
    le_trans (le_max_left a b) (le_max_left _ _)
  have hbmax : b ≤ max (max a b) (max c d) :=
    le_trans (le_max_right a b) (le_max_left _ _)
  have hcmax : c ≤ max (max a b) (max c d) :=
    le_trans (le_max_left c d) (le_max_right _ _)
  have hdmax : d ≤ max (max a b) (max c d) :=
    le_trans (le_max_right c d) (le_max_right _ _)
  have hchoice : max (max a b) (max c d) = a ∨ max (max a b) (max c d) = b ∨
      max (max a b) (max c d) = c ∨ max (max a b) (max c d) = d := by
    rcases max_choice (max a b) (max c d) with h | h
    · rcases max_choice a b with h2 | h2
      · exact Or.inl (h.trans h2)
      · exact Or.inr (Or.inl (h.trans h2))
    · rcases max_choice c d with h2 | h2
      · exact Or.inr (Or.inr (Or.inl (h.trans h2)))
      · exact Or.inr (Or.inr (Or.inr (h.trans h2)))
  constructor
  · intro hnone t ht
    rw [hcases] at hnone
    by_cases hge : 2 ≤ max (max a b) (max c d)
    · rw [if_pos hge] at hnone
      split_ifs at hnone
    · have hsmall : max (max a b) (max c d) < 2 := not_le.mp hge
      simp only [report_sections, List.mem_cons, List.mem_singleton] at ht
      rcases ht with rfl | rfl | rfl | rfl | h
      · rw [hch]; omega
      · rw [hpr]; omega
      · rw [hfi]; omega
      · rw [hco]; omega
      · cases h
  · intro s hsome
    rw [hcases] at hsome
    by_cases hge : 2 ≤ max (max a b) (max c d)
    · rw [if_pos hge] at hsome
      by_cases hA : a = max (max a b) (max c d)
      · rw [if_pos hA] at hsome
        injection hsome with hs
        subst hs
        refine ⟨by simp [report_sections], by rw [hch]; omega, ?_, ?_⟩
        · intro t ht
          simp only [report_sections, List.mem_cons, List.mem_singleton] at ht
          rcases ht with rfl | rfl | rfl | rfl | h
          · exact le_refl _
          · rw [hpr, hch]; omega
          · rw [hfi, hch]; omega
          · rw [hco, hch]; omega
          · cases h
        · intro t ht hteq
          simp [section_index]
      · rw [if_neg hA] at hsome
        by_cases hB : b = max (max a b) (max c d)
        · rw [if_pos hB] at hsome
          injection hsome with hs
          subst hs
          refine ⟨by simp [report_sections], by rw [hpr]; omega, ?_, ?_⟩
          · intro t ht
            simp only [report_sections, List.mem_cons,
              List.mem_singleton] at ht
            rcases ht with rfl | rfl | rfl | rfl | h
            · rw [hch, hpr]; omega
            · exact le_refl _
            · rw [hfi, hpr]; omega
            · rw [hco, hpr]; omega
            · cases h
          · intro t ht hteq
            simp only [report_sections, List.mem_cons,
              List.mem_singleton] at ht
            rcases ht with rfl | rfl | rfl | rfl | h
            · rw [hch, hpr] at hteq; omega
            · exact le_refl _
            · simp [section_index]
            · simp [section_index]
            · cases h
        · rw [if_neg hB] at hsome
          by_cases hC : c = max (max a b) (max c d)
          · rw [if_pos hC] at hsome
            injection hsome with hs
            subst hs
            refine ⟨by simp [report_sections], by rw [hfi]; omega, ?_, ?_⟩
            · intro t ht
              simp only [report_sections, List.mem_cons,
                List.mem_singleton] at ht
              rcases ht with rfl | rfl | rfl | rfl | h
              · rw [hch, hfi]; omega
              · rw [hpr, hfi]; omega
              · exact le_refl _
              · rw [hco, hfi]; omega
              · cases h
            · intro t ht hteq
              simp only [report_sections, List.mem_cons,
                List.mem_singleton] at ht
              rcases ht with rfl | rfl | rfl | rfl | h
              · rw [hch, hfi] at hteq; omega
              · rw [hpr, hfi] at hteq; omega
              · exact le_refl _
              · simp [section_index]
              · cases h
          · rw [if_neg hC] at hsome
            injection hsome with hs
            subst hs
            have hD : d = max (max a b) (max c d) := by
              rcases hchoice with h | h | h | h
              · exact absurd h.symm hA
              · exact absurd h.symm hB
              · exact absurd h.symm hC
              · exact h.symm
            refine ⟨by simp [report_sections], by rw [hco]; omega, ?_, ?_⟩
            · intro t ht
              simp only [report_sections, List.mem_cons,
                List.mem_singleton] at ht
              rcases ht with rfl | rfl | rfl | rfl | h
              · rw [hch, hco]; omega
              · rw [hpr, hco]; omega
              · rw [hfi, hco]; omega
              · exact le_refl _
              · cases h
            · intro t ht hteq
              simp only [report_sections, List.mem_cons,
                List.mem_singleton] at ht
              rcases ht with rfl | rfl | rfl | rfl | h
              · rw [hch, hco] at hteq; omega
              · rw [hpr, hco] at hteq; omega
              · rw [hfi, hco] at hteq; omega
              · exact le_refl _
              · cases h
    · rw [if_neg hge] at hsome
      cases hsome

/-- C3 witness: the characterisation applied at the tied concrete paragraph. -/
theorem keyword_scoring_characterisation_witness :
    "CLINICAL HISTORY" ∈ report_sections ∧
    2 ≤ classify_score "pain trauma normal seen" "CLINICAL HISTORY" ∧
    (∀ t ∈ report_sections,
      classify_score "pain trauma normal seen" t ≤
        classify_score "pain trauma normal seen" "CLINICAL HISTORY") ∧
    (∀ t ∈ report_sections,
      classify_score "pain trauma normal seen" t =
        classify_score "pain trauma normal seen" "CLINICAL HISTORY" →
      section_index "CLINICAL HISTORY" ≤ section_index t) :=
  (keyword_scoring_characterisation "pain trauma normal seen").2
    "CLINICAL HISTORY" rfl

/-! ## Plural-to-singular corrections — formatter.py `_MEDICAL_CORRECTIONS`
(lines 403-414)

The plural-normalisation subsection of the ordered correction table.  The
word rules are `(?<!\d\s)(?<!\d)\b(WORD)\b` (IGNORECASE) with a lowercase
replacement; `tears` adds the lookahead `(?=\s|\.|\,|$)`; the two phrase
rules are `\bfree\s+fluids\b` / `\bpleural\s+fluids\b` with no digit guard.
Rules are applied in table order, each scanning left to right with
non-overlapping matches and lookbehinds reading the original characters. -/

def is_word_char (c : Char) : Bool :=
  is_lower_az c || (decide ('A' ≤ c) && decide (c ≤ 'Z')) ||
    (decide ('0' ≤ c) && decide (c ≤ '9')) || c == '_'

def is_digit_char (c : Char) : Bool :=
  decide ('0' ≤ c) && decide (c ≤ '9')

/-- Case-insensitive literal match: returns the consumed original characters
and the remainder. -/
def match_ci : List Char → List Char → Option (List Char × List Char)
  | [], cs => some ([], cs)
  | _ :: _, [] => none
  | p :: ps, c :: cs =>
    if ascii_lower c == p then
      match match_ci ps cs with
      | some pr => some (c :: pr.1, pr.2)
      | none => none
    else none

structure PluralWordRule where
  word : String
  repl : String
  digit_guard : Bool
  tears_lookahead : Bool

structure PluralPhraseRule where
  w1 : String
  w2 : String
  repl : String

/-- Lookbehind context after consuming matched original characters. -/
def prev_after (m : List Char) (prev1 prev2 : Option Char) :
    Option Char × Option Char :=
  match m.reverse with
  | [] => (prev1, prev2)
  | [a] => (some a, prev1)
  | a :: b :: _ => (some a, some b)

def sub_word_go (rule : PluralWordRule) (fuel : Nat)
    (prev1 prev2 : Option Char) (cs : List Char) : List Char :=
  match fuel with
  | 0 => cs
  | fuel + 1 =>
    match cs with
    | [] => []
    | c :: rest =>
      let boundary_ok := match prev1 with
        | none => true
        | some p => !is_word_char p
      let guard_ok :=
        if rule.digit_guard then
          (match prev1 with | some p => !is_digit_char p | none => true) &&
          !((match prev2 with | some q => is_digit_char q | none => false) &&
            (match prev1 with | some p => py_is_space p | none => false))
        else true
      if boundary_ok && guard_ok then
        match match_ci rule.word.data cs with
        | some mr =>
          let after_ok := match mr.2 with
            | [] => true
            | c2 :: _ => !is_word_char c2
          let la_ok :=
            if rule.tears_lookahead then
              match mr.2 with
              | [] => true
              | c2 :: _ => py_is_space c2 || c2 == '.' || c2 == ','
            else true
          if after_ok && la_ok then
            rule.repl.data ++
              sub_word_go rule fuel (prev_after mr.1 prev1 prev2).1
                (prev_after mr.1 prev1 prev2).2 mr.2
          else c :: sub_word_go rule fuel (some c) prev1 rest
        | none => c :: sub_word_go rule fuel (some c) prev1 rest
      else c :: sub_word_go rule fuel (some c) prev1 rest

/-- re.sub for one guarded plural word rule. -/
def sub_word_rule (rule : PluralWordRule) (s : String) : String :=
  String.mk (sub_word_go rule (s.data.length + 1) none none s.data)

def take_while_space : List Char → List Char × List Char
  | [] => ([], [])
  | c :: rest =>
    if py_is_space c then
      let p := take_while_space rest
      (c :: p.1, p.2)
    else ([], c :: rest)

def match_phrase (rule : PluralPhraseRule) (cs : List Char) :
    Option (List Char × List Char) :=
  match match_ci rule.w1.data cs with
  | none => none
  | some m1 =>
    let sp := take_while_space m1.2
    if sp.1.isEmpty then none
    else
      match match_ci rule.w2.data sp.2 with
      | none => none
      | some m2 =>
        let after_ok := match m2.2 with
          | [] => true
          | c2 :: _ => !is_word_char c2
        if after_ok then some (m1.1 ++ sp.1 ++ m2.1, m2.2) else none

def sub_phrase_go (rule : PluralPhraseRule) (fuel : Nat)
    (prev1 : Option Char) (cs : List Char) : List Char :=
  match fuel with
  | 0 => cs
  | fuel + 1 =>
    match cs with
    | [] => []
    | c :: rest =>
      let boundary_ok := match prev1 with
        | none => true
        | some p => !is_word_char p
      if boundary_ok then
        match match_phrase rule cs with
        | some mr =>
          rule.repl.data ++ sub_phrase_go rule fuel
            (match mr.1.reverse with | [] => prev1 | a :: _ => some a) mr.2
        | none => c :: sub_phrase_go rule fuel (some c) rest
      else c :: sub_phrase_go rule fuel (some c) rest

/-- re.sub for one plural phrase rule. -/
def sub_phrase_rule (rule : PluralPhraseRule) (s : String) : String :=
  String.mk (sub_phrase_go rule (s.data.length + 1) none s.data)

/-- The plural-to-singular subsection of `_MEDICAL_CORRECTIONS`
(formatter.py lines 403-414), applied in table order. -/
def apply_plural_corrections (s : String) : String :=
  let s := sub_word_rule ⟨"abnormalities", "abnormality", true, false⟩ s
  let s := sub_word_rule ⟨"effusions", "effusion", true, false⟩ s
  let s := sub_phrase_rule ⟨"free", "fluids", "free fluid"⟩ s
  let s := sub_word_rule ⟨"concerns", "concern", true, false⟩ s
  let s := sub_word_rule ⟨"lesions", "lesion", true, false⟩ s
  let s := sub_word_rule ⟨"tears", "tear", true, true⟩ s
  let s := sub_word_rule ⟨"fragments", "fragment", true, false⟩ s
  let s := sub_word_rule ⟨"ribs", "rib", true, false⟩ s
  sub_phrase_rule ⟨"pleural", "fluids", "pleural fluid"⟩ s

/-- C4 counterexample: "fractures" is not among the nouns of the
plural-to-singular rules, so "fractures are noted" passes through the
correction table unchanged — it does not become "fracture are noted" as the
claim states. -/
theorem fractures_are_not_singularized :
    apply_plural_corrections "fractures are noted" = "fractures are noted" ∧
    apply_plural_corrections "fractures are noted" ≠ "fracture are noted" := by
  constructor
  · rfl
  · decide

/-- C4 (amended): the plural-to-singular table covers abnormalities,
effusions, concerns, lesions, tears, fragments, ribs and the phrases
free/pleural fluids — not fractures; and the numeral guard is a digit
lookbehind: a digit such as "3 " suppresses the singularization while a
spelled-out numeral such as "three " does not. -/
theorem plural_guard_behaviour :
    apply_plural_corrections "three fractures are noted"
      = "three fractures are noted" ∧
    apply_plural_corrections "fractures are noted" = "fractures are noted" ∧
    apply_plural_corrections "lesions are noted" = "lesion are noted" ∧
    apply_plural_corrections "3 lesions are noted" = "3 lesions are noted" ∧
    apply_plural_corrections "three lesions are noted"
      = "three lesion are noted" ∧
    apply_plural_corrections "free fluids and two rib fragments are seen"
      = "free fluid and two rib fragment are seen" := by
  refine ⟨?_, ?_, ?_, ?_, ?_, ?_⟩ <;> rfl

end Crowdtrans
